import Mathlib

/-!
Verification development for the absenteeism inference service
(`src/backend/app.py`): a shallow embedding of the artifact loader,
the `/predict` endpoint, the fairness column drop, the explanation
generator and the read-only request handlers, together with theorems
settling the specified properties.

Modelling conventions:
* a one-row pandas DataFrame built from a feature dict is an association
  list of column name / scalar value pairs, in insertion order;
* Python floats are rationals (`Rat`);
* code that may raise is embedded in `Except`; a Python `try/except`
  becomes a `match` on the `Except` value;
* the process-wide globals `MODEL`, `PREPROC`, `THRESHOLD`, `CALIBRATED`
  form a `ServerState`; request handlers are written in state-passing
  style `ServerState → output × ServerState` so that any mutation of the
  globals would be visible in the returned state.
-/

namespace AbsenteeismApp

/-- A scalar feature value supplied by the client (arbitrary scalar in the
request schema; the serving code never inspects it). -/
abbrev Val := Int

/-- A one-row tabular frame: column names with their single values, in
insertion order, as produced by `pd.DataFrame([req.features])`. -/
abbrev Frame := List (String × Val)

/-- The preprocessing stage optionally embedded in the model pipeline.
`getFeatureNamesOut = none` models `hasattr(PREPROC,
"get_feature_names_out")` being false; `some r` models the attribute being
present, with `r` the outcome of calling it (it may raise). -/
structure Preproc where
  getFeatureNamesOut : Option (Except Unit (List String))

/-- The loaded model artifact, `MODEL` in `app.py`.

* `estimatorNamedSteps = some p` models
  `hasattr(MODEL, "estimator") and hasattr(MODEL.estimator, "named_steps")`
  holding, with `p = MODEL.estimator.named_steps.get("pre", None)`;
* `namedSteps = some p` models `hasattr(MODEL, "named_steps")` holding,
  with `p = MODEL.named_steps.get("pre", None)`;
* `hasCalibratedClassifiers` models `hasattr(MODEL, "calibrated_classifiers")`;
* `coef` models the `coef_` attribute when present: the rows of the 2-D
  coefficient array;
* `predictProba` models `MODEL.predict_proba(X)[:, 1][0]` on a one-row
  frame, which may raise (bad schema, model exception). -/
structure Model where
  estimatorNamedSteps : Option (Option Preproc)
  namedSteps : Option (Option Preproc)
  hasCalibratedClassifiers : Bool
  coef : Option (List (List Rat))
  predictProba : Frame → Except String Rat

/-- The process-wide globals after `_load_artifacts` ran. -/
structure ServerState where
  model : Option Model
  preproc : Option Preproc
  threshold : Rat
  calibrated : Bool

/-- The filesystem outcomes the loader can encounter.
`modelFile = none`: `model_final.pkl` does not exist; `some (.error e)`:
`joblib.load` raised; `some (.ok m)`: it returned model `m`.
`thresholdFile = none`: `threshold.json` does not exist; `some (.error ())`:
`float(json.load(open(tpath))["threshold"])` raised; `some (.ok t)`: it
evaluated to `t`. -/
structure FS where
  modelFile : Option (Except String Model)
  thresholdFile : Option (Except Unit Rat)

/-- Preprocessor extraction in `_load_artifacts` (lines 32–40): nested
calibrated pipeline first, then direct pipeline, else `None`. -/
def extractPreproc (m : Model) : Option Preproc :=
  match m.estimatorNamedSteps with
  | some p => p
  | none =>
    match m.namedSteps with
    | some p => p
    | none => none

/-- The `try`-block of `_load_artifacts` (lines 23–48): on success the
model and its extracted preprocessor; on `joblib.load` raising, the
`except` branch sets both to `None`; on the file being absent, `MODEL`
is set to `None` (and `PREPROC` keeps its initial module-level `None`). -/
def loadModelBlock (mf : Option (Except String Model)) :
    Option Model × Option Preproc :=
  match mf with
  | some (Except.ok m) => (some m, extractPreproc m)
  | some (Except.error _) => (none, none)
  | none => (none, none)

/-- Threshold loading in `_load_artifacts` (lines 50–58): parse result if
the file exists and parses, `0.5` on parse error or absence. -/
def loadThreshold (tf : Option (Except Unit Rat)) : Rat :=
  match tf with
  | some (Except.ok t) => t
  | some (Except.error _) => (1 : Rat) / 2
  | none => (1 : Rat) / 2

/-- `isinstance(x, object)` holds for every Python value, including
`None`; it is the second disjunct of the calibration-flag computation. -/
def isinstanceObject (_m : Option Model) : Bool := true

/-- `hasattr(MODEL, "calibrated_classifiers")`; false when `MODEL` is
`None` (the attribute is absent on `None`). -/
def hasattrCalibratedClassifiers (m : Option Model) : Bool :=
  match m with
  | some mdl => mdl.hasCalibratedClassifiers
  | none => false

/-- `_load_artifacts` (lines 20–62): every exception a sub-step can raise
is a constructor of `FS` and every case is handled, so the loader is a
total function into `ServerState` — it never raises out of its own
boundary. -/
def loadArtifacts (fs : FS) : ServerState :=
  let mp := loadModelBlock fs.modelFile
  { model := mp.1
    preproc := mp.2
    threshold := loadThreshold fs.thresholdFile
    calibrated := hasattrCalibratedClassifiers mp.1 || isinstanceObject mp.1 }

/-- `df.drop(columns=[c])` on a one-row frame: remove the column named `c`. -/
def dropColumn (df : Frame) (c : String) : Frame :=
  df.filter (fun p => p.1 ≠ c)

/-- `_drop_fairness_columns` (lines 135–139): for each of the literal
names `"age"`, `"Age"`, `"AGE"`, drop the column when present. -/
def dropFairnessColumns (df : Frame) : Frame :=
  ["age", "Age", "AGE"].foldl
    (fun d c => if d.any (fun p => p.1 = c) then dropColumn d c else d) df

/-- `getattr(MODEL, "coef_", None)`: the coefficient rows when the model
exists and has the attribute, else the default `None`. -/
def getattrCoef (m : Option Model) : Option (List (List Rat)) :=
  match m with
  | some mdl => mdl.coef
  | none => none

/-- The synthetic-name branch of `_explain_linear` (line 149):
`[f"f{i}" for i in range(getattr(MODEL, "coef_", [[0]])[0].shape[0])]`.
When `coef_` is absent, `getattr` yields the plain list `[[0]]`, whose
first element is a list without a `.shape` attribute, so the expression
raises `AttributeError`; when `coef_` is an empty array, `coef_[0]`
raises `IndexError`. Both raises are caught by the surrounding `except`. -/
def syntheticNames (st : ServerState) : Except Unit (List String) :=
  match getattrCoef st.model with
  | none => Except.error ()
  | some rows =>
    match rows.head? with
    | none => Except.error ()
    | some row =>
      Except.ok ((List.range row.length).map (fun i => "f" ++ toString i))

/-- Name resolution in `_explain_linear` (lines 146–149): call
`PREPROC.get_feature_names_out()` when the attribute exists (the call may
raise), otherwise fall back to synthetic names. `hasattr` on a `None`
preprocessor is false. -/
def explainNames (st : ServerState) : Except Unit (List String) :=
  match st.preproc with
  | some pre =>
    match pre.getFeatureNamesOut with
    | some r => r
    | none => syntheticNames st
  | none => syntheticNames st

/-- `np.argsort(np.abs(coefs))`: the indices of `coefs` sorted ascending
by absolute value (embedded as a stable insertion sort on indices). -/
def argsortAbs (coefs : List Rat) : List Nat :=
  (List.range coefs.length).insertionSort
    (fun i j => |coefs.getD i 0| ≤ |coefs.getD j 0|)

/-- `np.argsort(np.abs(coefs))[::-1][:3]`: top (at most) 3 indices by
descending absolute coefficient value. -/
def topIdx (coefs : List Rat) : List Nat :=
  (argsortAbs coefs).reverse.take 3

/-- `"↑" if coefs[i] > 0 else "↓"` (line 157). -/
def arrow (c : Rat) : String := if 0 < c then "↑" else "↓"

/-- The message-building loop of `_explain_linear` (lines 155–158):
`names[i]` raises `IndexError` when `i` is out of range, in which case
the whole call falls through to the `except` branch. -/
def buildMsgs (names : List String) (coefs : List Rat) :
    List Nat → Except Unit (List String)
  | [] => Except.ok []
  | i :: rest =>
    match names.get? i with
    | none => Except.error ()
    | some nm =>
      match buildMsgs names coefs rest with
      | Except.error e => Except.error e
      | Except.ok msgs =>
        Except.ok ((nm ++ " " ++ arrow (coefs.getD i 0) ++ " (impact)") :: msgs)

/-- The static fallback returned when `coef_` is absent (line 152). -/
def noCoefMsg : List String := ["Model coefficients not available."]

/-- The static fallback returned by the `except` branch (line 161). -/
def exceptMsg : List String := ["Explanations unavailable; showing probability only."]

/-- `_explain_linear` (lines 142–161). The `proba` argument is accepted
and ignored, as in the source. Total: every internal raise is caught and
replaced by a static message, so nothing propagates to the caller. -/
def explainLinear (st : ServerState) (_proba : Rat) : List String :=
  match explainNames st with
  | Except.error _ => exceptMsg
  | Except.ok names =>
    match getattrCoef st.model with
    | none => noCoefMsg
    | some rows =>
      match rows.head? with
      | none => exceptMsg
      | some coefs =>
        match buildMsgs names coefs (topIdx coefs) with
        | Except.error _ => exceptMsg
        | Except.ok msgs => msgs

/-- The `/predict` response body (`PredictResponse` in `app.py`). -/
structure PredictResponse where
  proba : Rat
  label : Int
  threshold : Rat
  calibrated : Bool
  explanations : List String
  model_ready : Bool
deriving DecidableEq

/-- Outcome of a `/predict` request: a successful response body, or an
`HTTPException` with a status code and a `detail` message. -/
inductive PredictResult where
  | ok (resp : PredictResponse)
  | httpError (status : Nat) (detail : String)
deriving DecidableEq

/-- The `/predict` handler body (lines 164–196). When no model is loaded
it returns the zero-probability stub; otherwise it builds the one-row
frame, drops the fairness columns, computes the probability (which may
raise, becoming a 400 error), the thresholded label and the
explanations. -/
def predictRun (st : ServerState) (features : Frame) : PredictResult :=
  match st.model with
  | none =>
    PredictResult.ok
      { proba := 0
        label := 0
        threshold := st.threshold
        calibrated := st.calibrated
        explanations := ["Model not loaded. Add artifacts."]
        model_ready := false }
  | some m =>
    match m.predictProba (dropFairnessColumns features) with
    | Except.error e => PredictResult.httpError 400 ("Prediction failed: " ++ e)
    | Except.ok proba =>
      PredictResult.ok
        { proba := proba
          label := if st.threshold ≤ proba then 1 else 0
          threshold := st.threshold
          calibrated := st.calibrated
          explanations := explainLinear st proba
          model_ready := true }

/-- `/predict` in state-passing style: the handler body contains no
assignment to any global, so the state is threaded through unchanged. -/
def predictStep (st : ServerState) (features : Frame) :
    PredictResult × ServerState :=
  (predictRun st features, st)

/-- The `/health` response body. -/
structure HealthResponse where
  status : String
  model_ready : Bool
deriving DecidableEq

/-- `/health` handler (lines 96–98), in state-passing style. -/
def healthStep (st : ServerState) : HealthResponse × ServerState :=
  ({ status := "ok", model_ready := st.model.isSome }, st)

/-- Opaque contents of a static JSON file. -/
abbrev Json := String

/-- `/model-info` handler (lines 101–106), in state-passing style:
a 500 `HTTPException` when the static file is missing, else its
contents. -/
def modelInfoStep (st : ServerState) (file : Option Json) :
    Except (Nat × String) Json × ServerState :=
  (match file with
   | none => Except.error (500, "model_info.json missing")
   | some j => Except.ok j, st)

/-- A flat metric mapping read from a metrics JSON file. -/
abbrev Metrics := List (String × Rat)

/-- The overall-performance key set of `/metrics` (line 120). -/
def overallKeys : List String := ["acc", "prec", "rec", "f1", "auc"]

/-- The fairness key set of `/metrics` (line 121). -/
def fairnessKeys : List String := ["SPD", "EOD", "FPR_diff"]

/-- The `split` helper of `/metrics` (lines 117–122). -/
def splitMetrics (m : Metrics) : Metrics × Metrics :=
  if m.isEmpty then ([], [])
  else (m.filter (fun p => p.1 ∈ overallKeys),
        m.filter (fun p => p.1 ∈ fairnessKeys))

/-- The `/metrics` response body. -/
structure MetricsResponse where
  overall_before : Metrics
  overall_after : Metrics
  fairness_before : Metrics
  fairness_after : Metrics
deriving DecidableEq

/-- `/metrics` handler (lines 109–132), in state-passing style: missing
files yield empty mappings. -/
def metricsStep (st : ServerState) (beforeFile afterFile : Option Metrics) :
    MetricsResponse × ServerState :=
  let sb := splitMetrics (beforeFile.getD [])
  let sa := splitMetrics (afterFile.getD [])
  ({ overall_before := sb.1
     overall_after := sa.1
     fairness_before := sb.2
     fairness_after := sa.2 }, st)

/-! ### Helper lemmas -/

/-- The guarded per-column step of `_drop_fairness_columns` is plain
column dropping: when the column is absent the drop is the identity. -/
lemma dropGuard_eq_dropColumn (d : Frame) (c : String) :
    (if d.any (fun p => p.1 = c) then dropColumn d c else d) = dropColumn d c := by
  by_cases hany : d.any (fun p => p.1 = c) = true
  · rw [if_pos hany]
  · rw [if_neg hany]
    rw [List.any_eq_true] at hany
    push_neg at hany
    unfold dropColumn
    symm
    rw [List.filter_eq_self]
    intro a ha
    have hne := hany a ha
    simp only [decide_eq_true_eq] at hne
    simp [hne]

/-- `_drop_fairness_columns` is a single filter keeping the columns whose
name is none of the three literal spellings. -/
lemma dropFairnessColumns_eq_filter (df : Frame) :
    dropFairnessColumns df =
      df.filter (fun p => p.1 ≠ "age" && p.1 ≠ "Age" && p.1 ≠ "AGE") := by
  unfold dropFairnessColumns
  simp only [List.foldl_cons, List.foldl_nil, dropGuard_eq_dropColumn]
  unfold dropColumn
  induction df with
  | nil => rfl
  | cons x xs ih =>
    by_cases h1 : x.1 = "age" <;> by_cases h2 : x.1 = "Age" <;>
      by_cases h3 : x.1 = "AGE" <;>
      simp_all [List.filter_cons, h1, h2, h3]

/-- Every model-ready success of `predictRun` copies the state's
calibration flag into the response. -/
lemma predictRun_ok_calibrated (st : ServerState) (f : Frame)
    (resp : PredictResponse) (h : predictRun st f = PredictResult.ok resp) :
    resp.calibrated = st.calibrated := by
  cases hm : st.model with
  | none =>
    simp only [predictRun, hm] at h
    cases h
    rfl
  | some m =>
    cases hp : m.predictProba (dropFairnessColumns f) with
    | error e =>
      simp only [predictRun, hm, hp] at h
      cases h
    | ok p =>
      simp only [predictRun, hm, hp] at h
      cases h
      rfl

/-! ### Claim theorems -/

/-- C1: for every `/predict` request served while the model is loaded
that completes successfully, the returned label equals 1 if and only if
the returned probability is greater than or equal to the loaded
threshold. -/
theorem predict_label_iff_threshold (st : ServerState) (f : Frame)
    (resp : PredictResponse)
    (h : predictRun st f = PredictResult.ok resp)
    (hr : resp.model_ready = true) :
    resp.label = 1 ↔ st.threshold ≤ resp.proba := by
  cases hm : st.model with
  | none =>
    simp only [predictRun, hm] at h
    cases h
    simp at hr
  | some m =>
    cases hp : m.predictProba (dropFairnessColumns f) with
    | error e =>
      simp only [predictRun, hm, hp] at h
      cases h
    | ok p =>
      simp only [predictRun, hm, hp] at h
      cases h
      by_cases hth : st.threshold ≤ p <;> simp [hth]

/-- A concrete model whose probability function returns 3 on every frame
(the serving code enforces no range on probabilities), used to
instantiate the theorems at a concrete input. -/
def wModel : Model :=
  { estimatorNamedSteps := none
    namedSteps := none
    hasCalibratedClassifiers := false
    coef := none
    predictProba := fun _ => Except.ok 3 }

/-- A concrete loaded state: `wModel`, no preprocessor, threshold 2. -/
def wState : ServerState :=
  { model := some wModel, preproc := none, threshold := 2, calibrated := true }

/-- The response `wState` produces on any request. -/
def wResp : PredictResponse :=
  { proba := 3
    label := 1
    threshold := 2
    calibrated := true
    explanations := exceptMsg
    model_ready := true }

/-- Witness for C1 at the concrete state `wState` and a one-feature
request. -/
theorem predict_label_iff_threshold_witness :
    wResp.label = 1 ↔ wState.threshold ≤ wResp.proba :=
  predict_label_iff_threshold wState [("x", 1)] wResp (by decide) (by decide)

/-- C3: if no model is loaded then `/predict` returns a successful
(non-error) response with `proba = 0`, `label = 0` and
`model_ready = false`, regardless of the input. -/
theorem predict_no_model (st : ServerState) (f : Frame)
    (h : st.model = none) :
    predictRun st f = PredictResult.ok
      { proba := 0
        label := 0
        threshold := st.threshold
        calibrated := st.calibrated
        explanations := ["Model not loaded. Add artifacts."]
        model_ready := false } := by
  unfold predictRun
  rw [h]

/-- Witness for C3: a state produced by the loader with no artifacts
present answers the stub response on a nonempty request. -/
theorem predict_no_model_witness :
    predictRun (loadArtifacts { modelFile := none, thresholdFile := none })
        [("x", 1)] = PredictResult.ok
      { proba := 0
        label := 0
        threshold := 1 / 2
        calibrated := true
        explanations := ["Model not loaded. Add artifacts."]
        model_ready := false } :=
  predict_no_model (loadArtifacts { modelFile := none, thresholdFile := none })
    [("x", 1)] rfl

/-- C9: no request handler mutates the process-wide model, preprocessor
or threshold state: each handler, in state-passing style, returns the
state it was given, for every request. -/
theorem handlers_preserve_state (st : ServerState) (f : Frame)
    (info : Option Json) (mb ma : Option Metrics) :
    (healthStep st).2 = st ∧ (modelInfoStep st info).2 = st ∧
      (metricsStep st mb ma).2 = st ∧ (predictStep st f).2 = st :=
  ⟨rfl, rfl, rfl, rfl⟩

/-- C10: every successful `/predict` response served from a state the
loader produced has `calibrated = true`, whatever the artifacts were:
the loader's calibration flag is a disjunction whose second disjunct,
`isinstance(MODEL, object)`, holds for every value. -/
theorem predict_always_calibrated (fs : FS) (f : Frame)
    (resp : PredictResponse)
    (h : predictRun (loadArtifacts fs) f = PredictResult.ok resp) :
    resp.calibrated = true := by
  rw [predictRun_ok_calibrated (loadArtifacts fs) f resp h]
  simp [loadArtifacts, isinstanceObject]

/-- Witness for C10 at the empty filesystem and an empty request. -/
theorem predict_always_calibrated_witness :
    ({ proba := 0
       label := 0
       threshold := 1 / 2
       calibrated := true
       explanations := ["Model not loaded. Add artifacts."]
       model_ready := false } : PredictResponse).calibrated = true :=
  predict_always_calibrated { modelFile := none, thresholdFile := none } []
    _ rfl

/-- A filesystem whose threshold file parses as the float 2 (for example
contents `\x7b"threshold": 2.0\x7d`), with no model artifact. -/
def fsBigThreshold : FS :=
  { modelFile := none, thresholdFile := some (Except.ok 2) }

/-- C4 counterexample: the loader performs no range check, so a threshold
file that parses as the float 2 yields a loaded threshold of 2, which is
not in [0,1]. -/
theorem threshold_out_of_range :
    (loadArtifacts fsBigThreshold).threshold = 2 ∧
      ¬ ((loadArtifacts fsBigThreshold).threshold ≤ 1) := by
  constructor
  · rfl
  · decide

/-- C4 amended: after loading, the threshold equals whatever float the
side-car file parses to under key `"threshold"` — no [0,1] bound is
enforced — and it equals 0.5 whenever the file is absent or fails to
parse. -/
theorem threshold_parse_or_default (fs : FS) :
    (∀ t, fs.thresholdFile = some (Except.ok t) →
        (loadArtifacts fs).threshold = t) ∧
      ((fs.thresholdFile = none ∨ fs.thresholdFile = some (Except.error ())) →
        (loadArtifacts fs).threshold = 1 / 2) := by
  constructor
  · intro t ht
    simp [loadArtifacts, loadThreshold, ht]
  · rintro (h | h) <;> simp [loadArtifacts, loadThreshold, h]

/-- Witness for the amended C4: with no threshold file the loaded
threshold is 0.5. -/
theorem threshold_parse_or_default_witness :
    (loadArtifacts { modelFile := none, thresholdFile := none }).threshold
      = 1 / 2 :=
  (threshold_parse_or_default
    { modelFile := none, thresholdFile := none }).2 (Or.inl rfl)

/-- C5: the loader is a total function of every modelled sub-step
outcome (so no failure escapes its boundary), and on any model-loading
failure — the artifact file being absent or `joblib.load` raising — it
leaves the model state not ready (model and preprocessor unset) instead
of failing startup. -/
theorem loader_degrades_to_not_ready (fs : FS)
    (h : fs.modelFile = none ∨ ∃ e, fs.modelFile = some (Except.error e)) :
    (loadArtifacts fs).model = none ∧ (loadArtifacts fs).preproc = none := by
  rcases h with h | ⟨e, h⟩ <;>
    simp [loadArtifacts, loadModelBlock, h]

/-- A filesystem whose model artifact exists but fails to unpickle. -/
def fsCorrupt : FS :=
  { modelFile := some (Except.error "corrupt pickle"), thresholdFile := none }

/-- Witness for C5: a corrupt model file degrades to the not-ready
state. -/
theorem loader_degrades_to_not_ready_witness :
    (loadArtifacts fsCorrupt).model = none ∧
      (loadArtifacts fsCorrupt).preproc = none :=
  loader_degrades_to_not_ready fsCorrupt (Or.inr ⟨"corrupt pickle", rfl⟩)

/-- C6: when the model is loaded and the probability computation raises,
`/predict` answers an `HTTPException` with status 400 whose `detail` is
the string `"Prediction failed: "` followed by the underlying error
message, and the handler leaves the service state unchanged. -/
theorem predict_failure_400 (st : ServerState) (m : Model) (f : Frame)
    (e : String) (hm : st.model = some m)
    (hp : m.predictProba (dropFairnessColumns f) = Except.error e) :
    predictStep st f =
      (PredictResult.httpError 400 ("Prediction failed: " ++ e), st) := by
  unfold predictStep
  simp only [predictRun, hm, hp]

/-- A concrete model whose probability function always raises, as a
model does when required features are missing from the frame. -/
def failModel : Model :=
  { estimatorNamedSteps := none
    namedSteps := none
    hasCalibratedClassifiers := false
    coef := none
    predictProba := fun _ => Except.error "columns are missing" }

/-- A concrete loaded state around `failModel`. -/
def failState : ServerState :=
  { model := some failModel, preproc := none, threshold := 2,
    calibrated := true }

/-- Witness for C6: an empty features mapping against `failState` yields
the 400 error and an unchanged state. -/
theorem predict_failure_400_witness :
    predictStep failState [] =
      (PredictResult.httpError 400
        ("Prediction failed: " ++ "columns are missing"), failState) :=
  predict_failure_400 failState failModel [] "columns are missing" rfl rfl

/-- A probe model whose probability function reports the column names of
the frame it receives as its error message, making the frame that
reaches the model observable. -/
def probeModel : Model :=
  { estimatorNamedSteps := none
    namedSteps := none
    hasCalibratedClassifiers := false
    coef := none
    predictProba := fun df =>
      Except.error (String.intercalate "," (df.map Prod.fst)) }

/-- A concrete loaded state around `probeModel`. -/
def probeState : ServerState :=
  { model := some probeModel, preproc := none, threshold := 2,
    calibrated := true }

/-- C2 counterexample: the key `"aGe"` matches `"age"` case-insensitively
but is not one of the three spellings `_drop_fairness_columns` removes,
so it survives the drop and reaches the model's probability function. -/
theorem mixed_case_age_reaches_model :
    dropFairnessColumns [("aGe", (5 : Val))] = [("aGe", 5)] ∧
      predictRun probeState [("aGe", 5)] =
        PredictResult.httpError 400 ("Prediction failed: " ++ "aGe") ∧
      "aGe".data.map Char.toLower = "age".data := by
  refine ⟨rfl, rfl, ?_⟩
  decide

/-- C2 amended: exactly the three literal spellings `"age"`, `"Age"`,
`"AGE"` are removed from the assembled single-row frame before the
model's probability function is invoked; a key in any other
capitalization (such as `"aGe"`) is passed through. -/
theorem dropFairness_exact_spellings (df : Frame) (k : String) (v : Val) :
    (k, v) ∈ dropFairnessColumns df ↔
      ((k, v) ∈ df ∧ k ≠ "age" ∧ k ≠ "Age" ∧ k ≠ "AGE") := by
  rw [dropFairnessColumns_eq_filter]
  simp [List.mem_filter, and_assoc]

/-- A column named exactly `"age"` is dropped wherever it occurs in the
frame, so the post-drop frames of the two requests coincide. -/
lemma dropFairness_erase_age (a b : Frame) (v : Val) :
    dropFairnessColumns (a ++ ("age", v) :: b) =
      dropFairnessColumns (a ++ b) := by
  rw [dropFairnessColumns_eq_filter, dropFairnessColumns_eq_filter]
  simp [List.filter_append, List.filter_cons]

/-- C7: two `/predict` requests whose feature mappings are identical
except that one additionally contains an `"age"` key (at any position)
yield identical outcomes, for every state. In the embedding the model's
probability function only ever sees the post-drop frame, so the claim's
proviso that the model reads only non-age features holds by
construction. -/
theorem predict_ignores_age_key (st : ServerState) (a b : Frame) (v : Val) :
    predictRun st (a ++ ("age", v) :: b) = predictRun st (a ++ b) := by
  cases hm : st.model with
  | none => simp only [predictRun, hm]
  | some m => simp only [predictRun, hm, dropFairness_erase_age]

/-- The message built for feature index `i`: the resolved name, the
direction arrow of its coefficient, and the `(impact)` tag. -/
def impactMsg (names : List String) (coefs : List Rat) (i : Nat) : String :=
  (names.get? i).getD "" ++ " " ++ arrow (coefs.getD i 0) ++ " (impact)"

/-- When the message loop completes without raising, it produced exactly
the per-index messages, in order. -/
lemma buildMsgs_ok (names : List String) (coefs : List Rat) :
    ∀ (l : List Nat) (msgs : List String),
      buildMsgs names coefs l = Except.ok msgs →
      msgs = l.map (impactMsg names coefs)
  | [], msgs, h => by
    cases h
    rfl
  | i :: rest, msgs, h => by
    unfold buildMsgs at h
    cases hg : names.get? i with
    | none =>
      rw [hg] at h
      cases h
    | some nm =>
      rw [hg] at h
      cases hr : buildMsgs names coefs rest with
      | error e =>
        rw [hr] at h
        cases h
      | ok ms =>
        rw [hr] at h
        cases h
        have ih := buildMsgs_ok names coefs rest ms hr
        simp only [List.map_cons, impactMsg, hg, Option.getD_some, ← ih]

/-- The indices `topIdx` selects are ranked by descending absolute
coefficient value. -/
lemma topIdx_sorted (coefs : List Rat) :
    List.Pairwise (fun i j => |coefs.getD j 0| ≤ |coefs.getD i 0|)
      (topIdx coefs) := by
  have hsorted :
      List.Sorted (fun i j => |coefs.getD i 0| ≤ |coefs.getD j 0|)
        (argsortAbs coefs) := by
    haveI : IsTotal Nat (fun i j => |coefs.getD i 0| ≤ |coefs.getD j 0|) :=
      ⟨fun i j => le_total _ _⟩
    haveI : IsTrans Nat (fun i j => |coefs.getD i 0| ≤ |coefs.getD j 0|) :=
      ⟨fun _ _ _ hab hbc => le_trans hab hbc⟩
    exact List.sorted_insertionSort _ _
  have hrev :
      List.Pairwise (fun i j => |coefs.getD j 0| ≤ |coefs.getD i 0|)
        (argsortAbs coefs).reverse := by
    rw [List.pairwise_reverse]
    exact hsorted
  exact hrev.sublist (List.take_sublist 3 _)

/-- C8: the explanation generator is a total function — every internal
raise is caught inside it — and its result is always one of: the static
no-coefficients message, the static exception-fallback message, or at
most three messages, one per index selected by `topIdx`, each carrying
the feature name and the direction arrow of its coefficient, with the
selected indices ranked by descending absolute coefficient magnitude. -/
theorem explain_linear_spec (st : ServerState) (p : Rat) :
    explainLinear st p = noCoefMsg ∨ explainLinear st p = exceptMsg ∨
      ∃ names coefs,
        explainLinear st p = (topIdx coefs).map (impactMsg names coefs) ∧
          (explainLinear st p).length ≤ 3 ∧
          List.Pairwise (fun i j => |coefs.getD j 0| ≤ |coefs.getD i 0|)
            (topIdx coefs) := by
  cases hn : explainNames st with
  | error e =>
    right; left
    simp [explainLinear, hn]
  | ok names =>
    cases hc : getattrCoef st.model with
    | none =>
      left
      simp [explainLinear, hn, hc]
    | some rows =>
      cases hh : rows.head? with
      | none =>
        right; left
        simp [explainLinear, hn, hc, hh]
      | some coefs =>
        cases hb : buildMsgs names coefs (topIdx coefs) with
        | error e =>
          right; left
          simp [explainLinear, hn, hc, hh, hb]
        | ok msgs =>
          right; right
          have hres : explainLinear st p = msgs := by
            simp [explainLinear, hn, hc, hh, hb]
          have hmap := buildMsgs_ok names coefs (topIdx coefs) msgs hb
          refine ⟨names, coefs, ?_, ?_, topIdx_sorted coefs⟩
          · rw [hres, hmap]
          · rw [hres, hmap, List.length_map]
            unfold topIdx
            exact List.length_take_le 3 _

end AbsenteeismApp
